import Mathlib

/-!
Shallow embedding of the QM35 UWB transport core
(drivers/uwb/qm358/drivers/base/qm and drivers/uwb/qm358/drivers/spi/qm):
the message dispatch table (qm35_transport.c), the HSSPI framing engine
(qm35_hsspi.c), the SPI send retry orchestration (qm35_spi_transport.c)
and the exclusive bypass channel (qm35_bypass.c).

C pointers that are only compared for equality or NULL-ness are modelled as
natural numbers with 0 standing for NULL.  Errno results are modelled as
`Int` with the kernel's negative-errno convention.
-/

/-! ### Errno constants (from errno.h, as used by the driver) -/

def EPERM : Int := 1
def ENOENT : Int := 2
def EBADF : Int := 9
def EAGAIN : Int := 11
def EBUSY : Int := 16
def EEXIST : Int := 17
def EINVAL : Int := 22
def EPROTO : Int := 71
def EMSGSIZE : Int := 90
def EOPNOTSUPP : Int := 95

/-! ### Dispatch table constants (qm35_transport.h) -/

def QM35_TRANSPORT_MSG_MAX : Nat := 6
def QM35_TRANSPORT_PRIO_HIGH : Nat := 0
def QM35_TRANSPORT_PRIO_NORMAL : Nat := 1
def QM35_TRANSPORT_PRIO_COUNT : Nat := 2
def QM35_TRANSPORT_MSG_UCI : Nat := 2

/-- `struct qm35_transport_recv_handler`: a callback pointer plus its opaque
data pointer.  `cb = 0` is the NULL callback, meaning the slot is empty. -/
structure qm35_transport_recv_handler where
  cb : Nat
  data : Nat
deriving DecidableEq, Repr

/-- The `rx_handlers` table of `struct qm35`, indexed by
`type * QM35_TRANSPORT_PRIO_COUNT + prio` exactly as in the C code. -/
structure Qm35 where
  rx_handlers : Nat → qm35_transport_recv_handler

/-- Point-update of the handler table. -/
def Qm35.setHandler (qm : Qm35) (idx : Nat) (h : qm35_transport_recv_handler) :
    Qm35 :=
  ⟨fun i => if i = idx then h else qm.rx_handlers i⟩

/-- `qm35_transport_register` (qm35_transport.c): store a callback for a
(type, prio) slot, failing with -EINVAL on bad arguments and -EEXIST when the
slot is occupied.  Returns the result code and the updated device state. -/
def qm35_transport_register (qm : Qm35) (type prio : Nat) (callback data : Nat) :
    Int × Qm35 :=
  if callback = 0 ∨ QM35_TRANSPORT_MSG_MAX ≤ type ∨
     QM35_TRANSPORT_PRIO_COUNT ≤ prio then
    (-EINVAL, qm)
  else
    let idx := type * QM35_TRANSPORT_PRIO_COUNT + prio
    if (qm.rx_handlers idx).cb = 0 then
      (0, qm.setHandler idx ⟨callback, data⟩)
    else
      (-EEXIST, qm)

/-- `qm35_transport_unregister` (qm35_transport.c): clear the slot only when
the stored callback matches, else fail with -EBADF. -/
def qm35_transport_unregister (qm : Qm35) (type prio : Nat) (callback : Nat) :
    Int × Qm35 :=
  if callback = 0 ∨ QM35_TRANSPORT_MSG_MAX ≤ type ∨
     QM35_TRANSPORT_PRIO_COUNT ≤ prio then
    (-EINVAL, qm)
  else
    let idx := type * QM35_TRANSPORT_PRIO_COUNT + prio
    if (qm.rx_handlers idx).cb = callback then
      (0, qm.setHandler idx ⟨0, 0⟩)
    else
      (-EBADF, qm)

/-- `qm35_transport_get_registered` (qm35_transport.c): return the
highest-priority registered handler for a message type, -ENOENT when none. -/
def qm35_transport_get_registered (qm : Qm35) (type : Nat) :
    Except Int qm35_transport_recv_handler :=
  if QM35_TRANSPORT_MSG_MAX ≤ type then
    .error (-EINVAL)
  else
    let idx := type * QM35_TRANSPORT_PRIO_COUNT + QM35_TRANSPORT_PRIO_HIGH
    let idx := if (qm.rx_handlers idx).cb = 0 then idx + 1 else idx
    if (qm.rx_handlers idx).cb ≠ 0 then
      .ok (qm.rx_handlers idx)
    else
      .error (-ENOENT)

/-- Outcome of `qm35_transport_event`: the returned code, the handler the
frame was delivered to (if any), and whether the function itself freed the
frame (`kfree_skb` on the error path; a dispatched handler instead takes
ownership). -/
structure EventOutcome where
  ret : Int
  delivered : Option qm35_transport_recv_handler
  freedByEvent : Bool
deriving DecidableEq, Repr

/-- `qm35_transport_event` (qm35_transport.c): receive a frame through the
transport `recv` callback, then dispatch it to the registered handler of its
type.  `recvRc` and `type` stand for what the low-level `recv` callback
returned for this inbound frame. -/
def qm35_transport_event (qm : Qm35) (recvRc : Int) (type : Nat) :
    EventOutcome :=
  if recvRc < 0 then
    ⟨recvRc, none, true⟩
  else
    match qm35_transport_get_registered qm type with
    | .error _ => ⟨-EOPNOTSUPP, none, true⟩
    | .ok h => ⟨0, some h, false⟩

/-- `qm35_transport_has_high_prio` (qm35_transport.c). -/
def qm35_transport_has_high_prio (qm : Qm35) (type : Nat) : Int :=
  if QM35_TRANSPORT_MSG_MAX ≤ type then
    -EINVAL
  else if (qm.rx_handlers
      (type * QM35_TRANSPORT_PRIO_COUNT + QM35_TRANSPORT_PRIO_HIGH)).cb ≠ 0 then
    1
  else
    0

/-! ### HSSPI framing engine (qm35_hsspi.h / qm35_hsspi.c) -/

def HSSPI_HOST_RD : Nat := 32
def HSSPI_HOST_PRD : Nat := 64
def HSSPI_HOST_WR : Nat := 128

def HSSPI_SOC_ERR : Nat := 16
def HSSPI_SOC_RDY : Nat := 32
def HSSPI_SOC_OA : Nat := 64
def HSSPI_SOC_ODW : Nat := 128

def QM35_HSSPI_RETRY_COUNT : Nat := 3
def QM35_HSSPI_RETRY_DELAY_US : Nat := 50

def QM35_WAKEUP_DURATION_US : Nat := 500
def QM35_WAKEUP_DELAY_US : Nat := 5000

/-- `struct qm35_hsspi_header`: flags byte, ul_value byte, 16-bit length. -/
structure qm35_hsspi_header where
  flags : Nat
  ul_value : Nat
  length : Nat
deriving DecidableEq, Repr

/-- The fields of `struct qm35_spi` touched by the framing engine: the
pending-read state (`prd_done`, `prd_length`), the combined-write state
(`should_write`, the queued `send_params`) and the stored combined-write
result `work_send.ret`. -/
structure HsspiState where
  prd_done : Bool
  prd_length : Nat
  should_write : Bool
  send_size : Nat
  send_type : Nat
  work_send_ret : Int
deriving DecidableEq, Repr

/-- `qm35_hsspi_wakeup` environment: which GPIOs exist and what the bus and
GPIO reads return during this call. -/
structure WakeupEnv where
  hasExton : Bool
  extonVal : Int
  hasWakeupGpio : Bool
  spiRes : Int
deriving DecidableEq, Repr

/-- Observable outcome of `qm35_hsspi_wakeup`: return code, whether the wake
sequence was performed at all, whether it used the dedicated wake line
(else the zero-length bus exchange), and the settle delay slept before
returning (0 when nothing was done). -/
structure WakeupResult where
  ret : Int
  performed : Bool
  usedPulse : Bool
  settleDelayUs : Nat
deriving DecidableEq, Repr

/-- `qm35_hsspi_wakeup` (qm35_hsspi.c): wake the device unless the EXTON
low-power GPIO (when present) reads active; without an EXTON GPIO a wake-up
is done only when `force` is set.  The wake itself is a pulse on the wakeup
GPIO or, lacking one, a header-less SPI transaction, followed by a fixed
settle delay. -/
def qm35_hsspi_wakeup (env : WakeupEnv) (force : Bool) : WakeupResult :=
  let rc : Int := if force then 0 else 1
  let rc : Int :=
    if env.hasExton then (if env.extonVal < 0 then 0 else env.extonVal) else rc
  if rc ≠ 0 then
    ⟨0, false, false, 0⟩
  else if env.hasWakeupGpio then
    ⟨0, true, true, QM35_WAKEUP_DELAY_US⟩
  else
    ⟨env.spiRes, true, false, QM35_WAKEUP_DELAY_US⟩

/-- `qm35_hsspi_send` environment: the `qm35_hsspi_wait_ready` result, the
`spi_sync` result of the write transaction, and the SOC header echoed into
`hdr` by that full-duplex transaction. -/
structure SendEnv where
  waitReady : Int
  syncRes : Int
  echo : qm35_hsspi_header
deriving DecidableEq, Repr

/-- `qm35_hsspi_send` (qm35_hsspi.c): one header+payload write exchange.
Checks the echoed SOC flags: all-zero or all-one means the SOC sleeps
(-EBUSY), a missing RDY bit means not ready (-EAGAIN).  When a pre-read was
requested and the echoed header announces outbound data waiting with a
nonzero length, the pending-read state is recorded — this happens whatever
`ret` already is. -/
def qm35_hsspi_send (st : HsspiState) (env : SendEnv) (_ul_value : Nat)
    (hasData : Bool) (length : Nat) (do_prd : Bool) : Int × HsspiState :=
  if ¬hasData ∨ length = 0 then
    (-EINVAL, st)
  else if env.waitReady ≠ 0 then
    (env.waitReady, st)
  else if env.syncRes ≠ 0 then
    (env.syncRes, st)
  else
    let hdr := env.echo
    let ret : Int :=
      if hdr.flags = 0x00 ∨ hdr.flags = 0xff then -EBUSY
      else if hdr.flags &&& HSSPI_SOC_RDY = 0 then -EAGAIN
      else 0
    let st' :=
      if do_prd ∧ hdr.flags &&& HSSPI_SOC_ODW ≠ 0 ∧ hdr.length ≠ 0 then
        { st with prd_length := hdr.length, prd_done := true }
      else st
    (ret, st')

/-- `qm35_hsspi_prd` (qm35_hsspi.c): header-only pre-read exchange.  In
check mode the echoed header is returned without inspection; otherwise the
SOC must announce outbound data waiting with a nonzero length (-EAGAIN if
not), which is then recorded as the pending-read state. -/
def qm35_hsspi_prd (st : HsspiState) (syncRes : Int)
    (echo : qm35_hsspi_header) (check : Bool) : Int × HsspiState :=
  if syncRes ≠ 0 then
    (syncRes, st)
  else if check then
    (0, st)
  else if echo.flags &&& HSSPI_SOC_ODW = 0 ∨ echo.length = 0 then
    (-EAGAIN, st)
  else
    (0, { st with prd_length := echo.length, prd_done := true })

/-- `qm35_hsspi_recv` environment: results of the entry `wait_ready`, the
pre-read `spi_sync` and its echoed header, the pre-RD `wait_ready`, and the
read-phase `spi_sync` with the header echoed into `header`. -/
structure RecvEnv where
  waitReadyEntry : Int
  prdSync : Int
  prdEcho : qm35_hsspi_header
  waitReadyRd : Int
  rdSync : Int
  rdEcho : qm35_hsspi_header
deriving DecidableEq, Repr

/-- Outcome of `qm35_hsspi_recv`: return value, resulting device state, and
whether the read-phase SPI transaction was issued. -/
structure RecvResult where
  ret : Int
  st : HsspiState
  didRd : Bool
deriving DecidableEq, Repr

/-- Read phase of `qm35_hsspi_recv` (qm35_hsspi.c, after the pre-read): the
buffer-size check, the ready wait, the full-duplex read transaction with
optional combined write, the echoed length/flags checks, and the final
pending-read-state update. -/
def qm35_hsspi_recv_rd (st : HsspiState) (env : RecvEnv) (size : Nat) :
    RecvResult :=
  if size < st.prd_length then
    ⟨-EMSGSIZE, { st with prd_done := false }, false⟩
  else if env.waitReadyRd ≠ 0 then
    ⟨env.waitReadyRd, st, false⟩
  else
    let length := st.prd_length
    let sentWR := st.should_write ∧ ¬(size < st.send_size)
    if env.rdSync ≠ 0 then
      ⟨env.rdSync, st, true⟩
    else
      let header := env.rdEcho
      let st2 :=
        if sentWR then
          if header.flags &&& HSSPI_SOC_RDY = 0 then
            { st with work_send_ret := -EAGAIN }
          else
            { st with work_send_ret := 0, should_write := false }
        else st
      let ret : Int :=
        if header.length ≠ length then -EPROTO
        else if header.flags &&& HSSPI_SOC_OA = 0 then -EAGAIN
        else 0
      let st3 :=
        if ret = 0 ∨ ret = -EPROTO ∨ header.flags &&& HSSPI_SOC_ODW ≠ 0 then
          { st2 with prd_done := false }
        else st2
      ⟨if ret = 0 then (length : Int) else ret, st3, true⟩

/-- `qm35_hsspi_recv` (qm35_hsspi.c): two-phase receive.  `hasData = false`
is the check-only mode (`data == NULL`).  A cached pending-read state from a
prior opportunistic pre-read skips the pre-read phase. -/
def qm35_hsspi_recv (st : HsspiState) (env : RecvEnv) (hasData : Bool)
    (size : Nat) : RecvResult :=
  let check := ¬hasData
  if hasData ∧ size = 0 then
    ⟨-EINVAL, st, false⟩
  else if ¬check ∧ env.waitReadyEntry ≠ 0 then
    ⟨env.waitReadyEntry, st, false⟩
  else if st.prd_done then
    qm35_hsspi_recv_rd st env size
  else
    let pr := qm35_hsspi_prd st env.prdSync env.prdEcho check
    if pr.1 ≠ 0 ∨ check then
      ⟨pr.1, pr.2, false⟩
    else
      qm35_hsspi_recv_rd pr.2 env size

/-! ### Send retry orchestration (qm35_spi_transport.c, qm35_spi_send) -/

/-- One enqueue of the send work item: the `wakeup` flag it carried in
`send_params` (the work calls `qm35_hsspi_wakeup(qmspi, wakeup)` first) and
the backoff delay slept just before this attempt (0 for the first one). -/
structure SendAttempt where
  wakeup : Bool
  delayBeforeUs : Nat
deriving DecidableEq, Repr

/-- The retry loop of `qm35_spi_send` (qm35_spi_transport.c): while the last
attempt returned -EAGAIN or -EBUSY and the post-decremented retry counter was
nonzero, sleep the backoff delay, double it, set the wakeup flag when the
last error was -EBUSY and no EXTON GPIO exists, and enqueue the send work
again.  `f k` is the result of the k-th enqueue (0-based). -/
def qm35_spi_send_retry (f : Nat → Int) (hasExton : Bool) (i : Nat)
    (ret : Int) (retry_count udelay : Nat) : Int × List SendAttempt :=
  if ret = -EAGAIN ∨ ret = -EBUSY then
    match retry_count with
    | 0 => (ret, [])
    | rc + 1 =>
      let wk := ret = -EBUSY ∧ ¬hasExton
      let rest := qm35_spi_send_retry f hasExton (i + 1) (f i) rc (udelay * 2)
      (rest.1, ⟨decide wk, udelay⟩ :: rest.2)
  else
    (ret, [])

/-- `qm35_spi_send` (qm35_spi_transport.c), reduced to its attempt/retry
behaviour: returns the final result code together with the list of attempts
made (their wakeup flags and backoff delays), given the per-attempt results
`f` and whether an EXTON GPIO exists. -/
def qm35_spi_send (f : Nat → Int) (hasExton : Bool) : Int × List SendAttempt :=
  let r0 := f 0
  let rest := qm35_spi_send_retry f hasExton 1 r0 QM35_HSSPI_RETRY_COUNT
    QM35_HSSPI_RETRY_DELAY_US
  (rest.1, ⟨false, 0⟩ :: rest.2)

/-- Number of attempts of a `qm35_spi_send` run in which the send work item
issued a forced wake-up (`qm35_hsspi_wakeup` called with `force = true`). -/
def forcedWakeups (attempts : List SendAttempt) : Nat :=
  (attempts.filter (·.wakeup)).length

/-! ### Exclusive bypass channel (qm35_bypass.c) -/

def QM35_BYPASS_ACTION_RESET : Nat := 0
def QM35_BYPASS_ACTION_FWUPD : Nat := 1
def QM35_BYPASS_ACTION_POWER : Nat := 2
def QM35_BYPASS_ACTION_MSG_TYPE : Nat := 3

/-- The address of the `qm35_bypass_event_cb` handler registered by the
bypass in the dispatch table (any fixed non-NULL pointer). -/
def qm35_bypass_event_cb_ptr : Nat := 1

/-- A received packet queued on the bypass channel (an `sk_buff` with its
`cb[0]`/`cb[1]` metadata and payload bytes). -/
structure SkBuffPkt where
  type : Nat
  flags : Nat
  data : List Nat
deriving DecidableEq, Repr

/-- `struct qm35_bypass` together with its unique channel
`struct qm35_bypass_channel` and the owning device's dispatch table (which
the bypass mutates through register/unregister). -/
structure BypassDev where
  tbl : Qm35
  opened : Bool
  owner : Nat
  expected_type : Nat
  listener : Nat
  listener_data : Nat
  packets : List SkBuffPkt

/-- `qm35_bypass_check` (qm35_bypass.c): -EBADF when not opened, -EPERM when
the calling process group is not the opener. -/
def qm35_bypass_check (b : BypassDev) (tgid : Nat) : Int :=
  if ¬b.opened then -EBADF
  else if b.owner ≠ tgid then -EPERM
  else 0

/-- `qm35_bypass_event_cb` (qm35_bypass.c): drop a packet whose type is not
the expected one, else append it to the tail of the channel queue (the
listener is then invoked).  The returned flag tells whether it was queued. -/
def qm35_bypass_event_cb (b : BypassDev) (pkt : SkBuffPkt) :
    BypassDev × Bool :=
  if pkt.type ≠ b.expected_type then
    (b, false)
  else
    ({ b with packets := b.packets ++ [pkt] }, true)

/-- `qm35_bypass_set_expected` (qm35_bypass.c): swap the high-priority
dispatch registration from the previous expected type to the new one. -/
def qm35_bypass_set_expected (b : BypassDev) (expected : Nat) : BypassDev :=
  if expected = b.expected_type then
    b
  else
    let tbl :=
      if b.expected_type ≠ QM35_TRANSPORT_MSG_MAX then
        (qm35_transport_unregister b.tbl b.expected_type
          QM35_TRANSPORT_PRIO_HIGH qm35_bypass_event_cb_ptr).2
      else b.tbl
    let tbl := (qm35_transport_register tbl expected QM35_TRANSPORT_PRIO_HIGH
      qm35_bypass_event_cb_ptr 1).2
    { b with tbl := tbl, expected_type := expected }

/-- `qm35_bypass_cleanup_hnd` + `qm35_bypass_cleanup` (qm35_bypass.c):
unregister the handler, drop all queued packets (returning their count) and
reset every channel field. -/
def qm35_bypass_cleanup (b : BypassDev) : Nat × BypassDev :=
  let tbl :=
    if b.expected_type ≠ QM35_TRANSPORT_MSG_MAX then
      (qm35_transport_unregister b.tbl b.expected_type
        QM35_TRANSPORT_PRIO_HIGH qm35_bypass_event_cb_ptr).2
    else b.tbl
  (b.packets.length,
    { tbl := tbl, opened := false, owner := 0,
      expected_type := QM35_TRANSPORT_MSG_MAX, listener := 0,
      listener_data := 0, packets := [] })

/-- `qm35_bypass_open` (qm35_bypass.c): fail with -EINVAL on a NULL callback,
-EBUSY when the channel is already opened; otherwise initialise the channel,
install the high-priority handler for the UCI type, record the caller's
process group as owner, and start the transport (rolling everything back if
that fails with `startRc < 0`). -/
def qm35_bypass_open (b : BypassDev) (cb priv_data tgid : Nat)
    (startRc : Int) : Int × BypassDev :=
  if cb = 0 then
    (-EINVAL, b)
  else if b.opened then
    (-EBUSY, b)
  else
    let hnd := { b with
      packets := [], listener := cb, listener_data := priv_data,
      expected_type := QM35_TRANSPORT_MSG_MAX }
    let hnd := qm35_bypass_set_expected hnd QM35_TRANSPORT_MSG_UCI
    let hnd := { hnd with owner := tgid, opened := true }
    if startRc < 0 then
      (startRc, (qm35_bypass_cleanup hnd).2)
    else
      (0, hnd)

/-- `qm35_bypass_close` (qm35_bypass.c): ownership-checked close; a nonzero
count of still-queued packets is only logged, not an error. -/
def qm35_bypass_close (b : BypassDev) (tgid : Nat) (hndValid : Bool) :
    Int × BypassDev :=
  if ¬hndValid then
    (-EINVAL, b)
  else
    let rc := qm35_bypass_check b tgid
    if rc ≠ 0 then
      (rc, b)
    else
      (0, (qm35_bypass_cleanup b).2)

/-- `qm35_bypass_control` (qm35_bypass.c): ownership-checked control
operation.  `param = none` models a NULL param pointer; `transportRc` is the
result of the transport callback the action invokes. -/
def qm35_bypass_control (b : BypassDev) (tgid : Nat) (hndValid : Bool)
    (action : Nat) (param : Option Int) (transportRc : Int) :
    Int × BypassDev :=
  if ¬hndValid then
    (-EINVAL, b)
  else
    let rc := qm35_bypass_check b tgid
    if rc ≠ 0 then
      (rc, b)
    else if (action = QM35_BYPASS_ACTION_RESET ∨
        action = QM35_BYPASS_ACTION_POWER) ∧ param = none then
      (-EINVAL, b)
    else if action = QM35_BYPASS_ACTION_RESET then
      (transportRc, qm35_bypass_set_expected b QM35_TRANSPORT_MSG_UCI)
    else if action = QM35_BYPASS_ACTION_MSG_TYPE then
      match param with
      | some p => ((b.expected_type : Int),
          qm35_bypass_set_expected b p.toNat)
      | none => ((b.expected_type : Int), b)
    else if action = QM35_BYPASS_ACTION_FWUPD then
      (transportRc, b)
    else if action = QM35_BYPASS_ACTION_POWER then
      (transportRc, b)
    else
      (-EOPNOTSUPP, b)

/-- `qm35_bypass_send` (qm35_bypass.c): ownership-checked direct send;
`sendRc` is the result of the transport `send` callback. -/
def qm35_bypass_send (b : BypassDev) (tgid : Nat) (hndValid : Bool)
    (bufferPtr len : Nat) (sendRc : Int) : Int × BypassDev :=
  if ¬hndValid ∨ bufferPtr = 0 ∨ len = 0 then
    (-EINVAL, b)
  else
    let rc := qm35_bypass_check b tgid
    if rc ≠ 0 then
      (rc, b)
    else
      (sendRc, b)

/-- `qm35_bypass_recv` (qm35_bypass.c): ownership-checked dequeue of the
packet at the head of the channel queue.  Copies at most `len` bytes to the
caller; a partially consumed packet stays at the head holding the remaining
bytes, and is removed (and freed) exactly when its last byte is consumed.
Returns the code, the new state and the (type, flags, bytes) copied out. -/
def qm35_bypass_recv (b : BypassDev) (tgid : Nat)
    (hndValid typePtrOk flagsPtrOk : Bool) (len : Nat) :
    Int × BypassDev × Option (Nat × Nat × List Nat) :=
  if ¬hndValid ∨ ¬typePtrOk ∨ ¬flagsPtrOk then
    (-EINVAL, b, none)
  else
    let rc := qm35_bypass_check b tgid
    if rc ≠ 0 then
      (rc, b, none)
    else
      match b.packets with
      | [] => (-EAGAIN, b, none)
      | skb :: rest =>
        let len := if skb.data.length < len then skb.data.length else len
        if len = skb.data.length then
          ((len : Int), { b with packets := rest },
            some (skb.type, skb.flags, skb.data.take len))
        else
          ((len : Int),
            { b with packets := { skb with data := skb.data.drop len } :: rest },
            some (skb.type, skb.flags, skb.data.take len))

/-! ### Claim theorems -/

/-- C1: For every inbound frame (successfully received, valid type), dispatch
delivers it to exactly one handler: the High-priority one when registered,
else the Normal-priority one; when neither is registered the event returns
-EOPNOTSUPP (Unsupported) and frees the frame itself, invoking no handler. -/
theorem dispatch_exactly_one_handler (qm : Qm35) (recvRc : Int) (type : Nat)
    (htype : type < QM35_TRANSPORT_MSG_MAX) (hrc : 0 ≤ recvRc) :
    (let high := qm.rx_handlers
      (type * QM35_TRANSPORT_PRIO_COUNT + QM35_TRANSPORT_PRIO_HIGH)
     let norm := qm.rx_handlers
      (type * QM35_TRANSPORT_PRIO_COUNT + QM35_TRANSPORT_PRIO_NORMAL)
     let out := qm35_transport_event qm recvRc type
     (high.cb ≠ 0 → out = ⟨0, some high, false⟩) ∧
     (high.cb = 0 → norm.cb ≠ 0 → out = ⟨0, some norm, false⟩) ∧
     (high.cb = 0 → norm.cb = 0 → out = ⟨-EOPNOTSUPP, none, true⟩)) := by
  have hnotneg : ¬recvRc < 0 := not_lt.mpr hrc
  have hnotle : ¬QM35_TRANSPORT_MSG_MAX ≤ type := not_le.mpr htype
  refine ⟨?_, ?_, ?_⟩ <;> intros h1 <;>
    simp only [qm35_transport_event, qm35_transport_get_registered,
      QM35_TRANSPORT_PRIO_HIGH, QM35_TRANSPORT_PRIO_NORMAL, hnotneg, hnotle,
      if_false, if_neg, Nat.add_zero] at *
  · simp [h1]
  · intro h2
    simp [h1, h2]
  · intro h2
    simp [h1, h2]

/-- A concrete dispatch table with one handler: callback 7 (data 9) in the
High slot of the UCI type (index 2 * 2 + 0 = 4). -/
def witnessQm : Qm35 := ⟨fun i => if i = 4 then ⟨7, 9⟩ else ⟨0, 0⟩⟩

/-- Witness for C1 at a concrete table, type and receive result. -/
theorem dispatch_exactly_one_handler_witness :
    2 < QM35_TRANSPORT_MSG_MAX ∧ (0 : Int) ≤ 5 ∧
    (let high := witnessQm.rx_handlers
      (2 * QM35_TRANSPORT_PRIO_COUNT + QM35_TRANSPORT_PRIO_HIGH)
     let norm := witnessQm.rx_handlers
      (2 * QM35_TRANSPORT_PRIO_COUNT + QM35_TRANSPORT_PRIO_NORMAL)
     let out := qm35_transport_event witnessQm 5 2
     (high.cb ≠ 0 → out = ⟨0, some high, false⟩) ∧
     (high.cb = 0 → norm.cb ≠ 0 → out = ⟨0, some norm, false⟩) ∧
     (high.cb = 0 → norm.cb = 0 → out = ⟨-EOPNOTSUPP, none, true⟩)) :=
  ⟨by decide, by decide,
    dispatch_exactly_one_handler witnessQm 5 2 (by decide) (by decide)⟩

/-- C5: For a valid (type, priority) pair, registering into an occupied slot
fails with -EEXIST and leaves the table unchanged; unregistering with a
callback different from the stored one fails with -EBADF (the spec's
NotFound) and leaves the table unchanged; after a successful unregister the
same pair registers again successfully. -/
theorem register_unregister_slot_discipline (qm : Qm35)
    (type prio cb cb' data data' : Nat)
    (htype : type < QM35_TRANSPORT_MSG_MAX)
    (hprio : prio < QM35_TRANSPORT_PRIO_COUNT)
    (hcb : cb ≠ 0) (hcb' : cb' ≠ 0) :
    (let idx := type * QM35_TRANSPORT_PRIO_COUNT + prio
     ((qm.rx_handlers idx).cb ≠ 0 →
       qm35_transport_register qm type prio cb data = (-EEXIST, qm)) ∧
     ((qm.rx_handlers idx).cb ≠ cb →
       qm35_transport_unregister qm type prio cb = (-EBADF, qm)) ∧
     ((qm.rx_handlers idx).cb = cb →
       qm35_transport_unregister qm type prio cb =
         (0, qm.setHandler idx ⟨0, 0⟩) ∧
       qm35_transport_register (qm.setHandler idx ⟨0, 0⟩) type prio cb' data' =
         (0, (qm.setHandler idx ⟨0, 0⟩).setHandler idx ⟨cb', data'⟩))) := by
  have hnt : ¬QM35_TRANSPORT_MSG_MAX ≤ type := not_le.mpr htype
  have hnp : ¬QM35_TRANSPORT_PRIO_COUNT ≤ prio := not_le.mpr hprio
  refine ⟨?_, ?_, ?_⟩ <;> intro h1 <;>
    simp only [qm35_transport_register, qm35_transport_unregister, hnt, hnp,
      hcb, hcb', or_self, if_false, if_neg, not_false_eq_true, false_or,
      or_false] at *
  · simp [h1]
  · simp [h1]
  · constructor
    · simp [h1]
    · simp [Qm35.setHandler]

/-- Witness for C5 at a concrete table: slot (UCI, High) holds callback 7,
so the occupied-register, mismatch-unregister and re-register branches are
all exercised at real inputs. -/
theorem register_unregister_slot_discipline_witness :
    2 < QM35_TRANSPORT_MSG_MAX ∧ 0 < QM35_TRANSPORT_PRIO_COUNT ∧
    (7 : Nat) ≠ 0 ∧ (8 : Nat) ≠ 0 ∧
    (let idx := 2 * QM35_TRANSPORT_PRIO_COUNT + 0
     ((witnessQm.rx_handlers idx).cb ≠ 0 →
       qm35_transport_register witnessQm 2 0 7 9 = (-EEXIST, witnessQm)) ∧
     ((witnessQm.rx_handlers idx).cb ≠ 7 →
       qm35_transport_unregister witnessQm 2 0 7 = (-EBADF, witnessQm)) ∧
     ((witnessQm.rx_handlers idx).cb = 7 →
       qm35_transport_unregister witnessQm 2 0 7 =
         (0, witnessQm.setHandler idx ⟨0, 0⟩) ∧
       qm35_transport_register (witnessQm.setHandler idx ⟨0, 0⟩) 2 0 8 10 =
         (0, (witnessQm.setHandler idx ⟨0, 0⟩).setHandler idx ⟨8, 10⟩))) :=
  ⟨by decide, by decide, by decide, by decide,
    register_unregister_slot_discipline witnessQm 2 0 7 8 9 10
      (by decide) (by decide) (by decide) (by decide)⟩

/-- C6: In `qm35_hsspi_send`, after a successful exchange, echoed SOC flags
of all-zero or all-one bits fail with -EBUSY (device asleep, retryable via
wake-up, not a protocol violation); any other flags value lacking the RDY
bit fails with the retryable -EAGAIN. -/
theorem send_echo_flags_policy (st : HsspiState) (env : SendEnv)
    (ul_value length : Nat) (do_prd : Bool) (hlen : length ≠ 0)
    (hwr : env.waitReady = 0) (hsync : env.syncRes = 0) :
    ((env.echo.flags = 0x00 ∨ env.echo.flags = 0xff) →
      (qm35_hsspi_send st env ul_value true length do_prd).1 = -EBUSY) ∧
    (env.echo.flags ≠ 0x00 → env.echo.flags ≠ 0xff →
      env.echo.flags &&& HSSPI_SOC_RDY = 0 →
      (qm35_hsspi_send st env ul_value true length do_prd).1 = -EAGAIN) := by
  constructor
  · intro h1
    simp [qm35_hsspi_send, hlen, hwr, hsync, h1]
  · intro h1 h2 h3
    simp [qm35_hsspi_send, hlen, hwr, hsync, h1, h2, h3]

/-- Witness for C6: sleeping echo (flags 0xff) gives -EBUSY, and a
not-ready echo (flags 0x40: OA set, RDY clear) gives -EAGAIN, at a concrete
state and environment. -/
theorem send_echo_flags_policy_witness :
    (4 : Nat) ≠ 0 ∧
    (let env1 : SendEnv := ⟨0, 0, ⟨0xff, 0, 0⟩⟩
     ((env1.echo.flags = 0x00 ∨ env1.echo.flags = 0xff) →
       (qm35_hsspi_send ⟨false, 0, false, 0, 0, 0⟩ env1 2 true 4 false).1 =
         -EBUSY) ∧
     (env1.echo.flags ≠ 0x00 → env1.echo.flags ≠ 0xff →
       env1.echo.flags &&& HSSPI_SOC_RDY = 0 →
       (qm35_hsspi_send ⟨false, 0, false, 0, 0, 0⟩ env1 2 true 4 false).1 =
         -EAGAIN)) ∧
    (let env2 : SendEnv := ⟨0, 0, ⟨0x40, 0, 0⟩⟩
     ((env2.echo.flags = 0x00 ∨ env2.echo.flags = 0xff) →
       (qm35_hsspi_send ⟨false, 0, false, 0, 0, 0⟩ env2 2 true 4 false).1 =
         -EBUSY) ∧
     (env2.echo.flags ≠ 0x00 → env2.echo.flags ≠ 0xff →
       env2.echo.flags &&& HSSPI_SOC_RDY = 0 →
       (qm35_hsspi_send ⟨false, 0, false, 0, 0, 0⟩ env2 2 true 4 false).1 =
         -EAGAIN)) :=
  ⟨by decide,
    send_echo_flags_policy ⟨false, 0, false, 0, 0, 0⟩ ⟨0, 0, ⟨0xff, 0, 0⟩⟩ 2 4
      false (by decide) (by decide) (by decide),
    send_echo_flags_policy ⟨false, 0, false, 0, 0, 0⟩ ⟨0, 0, ⟨0x40, 0, 0⟩⟩ 2 4
      false (by decide) (by decide) (by decide)⟩

/-- C8 counterexample: with the EXTON low-power GPIO present and reading
"awake" (1), `qm35_hsspi_wakeup` with `force = true` performs no wake-up at
all — `force` does not override an awake indication, contradicting the
claim. -/
theorem wakeup_force_ignored_when_exton_awake :
    (qm35_hsspi_wakeup ⟨true, 1, true, 0⟩ true).performed = false ∧
    qm35_hsspi_wakeup ⟨true, 1, true, 0⟩ true = ⟨0, false, false, 0⟩ := by
  decide

/-- C8 amended: when a low-power (EXTON) signal exists, `wakeUp` performs
the wake sequence exactly when the signal reads asleep or its read fails
(`force` is ignored); without the signal, exactly when `force` is set.  A
performed wake-up uses a pulse on the dedicated wake line when present, else
a zero-length bus exchange, and sleeps the fixed settle delay before
returning; otherwise the call is a complete no-op returning 0. -/
theorem wakeup_behaviour (env : WakeupEnv) (force : Bool) :
    (let r := qm35_hsspi_wakeup env force
     (r.performed = true ↔
       (if env.hasExton = true then env.extonVal ≤ 0 else force = true)) ∧
     (r.performed = true →
       r.usedPulse = env.hasWakeupGpio ∧
       r.settleDelayUs = QM35_WAKEUP_DELAY_US ∧
       (env.hasWakeupGpio = true → r.ret = 0) ∧
       (env.hasWakeupGpio = false → r.ret = env.spiRes)) ∧
     (r.performed = false → qm35_hsspi_wakeup env force = ⟨0, false, false, 0⟩)) := by
  unfold qm35_hsspi_wakeup
  by_cases he : env.hasExton = true
  · by_cases hv : env.extonVal < 0
    · cases hw : env.hasWakeupGpio <;>
        simp [he, hv, hw] <;> omega
    · by_cases hz : env.extonVal = 0
      · cases hw : env.hasWakeupGpio <;>
          simp [he, hv, hz, hw]
      · cases hw : env.hasWakeupGpio <;>
          simp [he, hv, hz, hw] <;> omega
  · cases hf : force <;> cases hw : env.hasWakeupGpio <;>
      simp [he, hf, hw]

/-- C4 counterexample: against a persistently Busy sleeping device with no
EXTON line, `qm35_spi_send` makes QM35_HSSPI_RETRY_COUNT + 1 = 4 total
attempts (not exactly RetryCount = 3) and passes a forced wake-up into 3 of
them — one before every retry that follows a Busy — not exactly one. -/
theorem spi_send_busy_retry_counterexample :
    (qm35_spi_send (fun _ => -EBUSY) false).2.length =
      QM35_HSSPI_RETRY_COUNT + 1 ∧
    (qm35_spi_send (fun _ => -EBUSY) false).2.length ≠
      QM35_HSSPI_RETRY_COUNT ∧
    forcedWakeups (qm35_spi_send (fun _ => -EBUSY) false).2 = 3 ∧
    forcedWakeups (qm35_spi_send (fun _ => -EBUSY) false).2 ≠ 1 ∧
    (qm35_spi_send (fun _ => -EBUSY) false).1 = -EBUSY := by
  decide

/-- C4 amended: when every attempt against a sleeping device (no EXTON
line) returns Busy, `qm35_spi_send` makes QM35_HSSPI_RETRY_COUNT + 1 total
attempts (the initial one plus RetryCount retries) before failing with
-EBUSY; every retry that follows a Busy — RetryCount of them — carries a
forced wake-up, and the backoff delays double from the fixed base. -/
theorem spi_send_busy_retry_behaviour (f : Nat → Int)
    (h : ∀ k, k < QM35_HSSPI_RETRY_COUNT + 1 → f k = -EBUSY) :
    qm35_spi_send f false =
      (-EBUSY, [⟨false, 0⟩, ⟨true, QM35_HSSPI_RETRY_DELAY_US⟩,
        ⟨true, 2 * QM35_HSSPI_RETRY_DELAY_US⟩,
        ⟨true, 4 * QM35_HSSPI_RETRY_DELAY_US⟩]) ∧
    (qm35_spi_send f false).2.length = QM35_HSSPI_RETRY_COUNT + 1 ∧
    forcedWakeups (qm35_spi_send f false).2 = QM35_HSSPI_RETRY_COUNT := by
  have h0 : f 0 = -EBUSY := h 0 (by norm_num)
  have h1 : f 1 = -EBUSY := h 1 (by norm_num [QM35_HSSPI_RETRY_COUNT])
  have h2 : f 2 = -EBUSY := h 2 (by norm_num [QM35_HSSPI_RETRY_COUNT])
  have h3 : f 3 = -EBUSY := h 3 (by norm_num [QM35_HSSPI_RETRY_COUNT])
  have hmain : qm35_spi_send f false =
      (-EBUSY, [⟨false, 0⟩, ⟨true, QM35_HSSPI_RETRY_DELAY_US⟩,
        ⟨true, 2 * QM35_HSSPI_RETRY_DELAY_US⟩,
        ⟨true, 4 * QM35_HSSPI_RETRY_DELAY_US⟩]) := by
    simp [qm35_spi_send, qm35_spi_send_retry, h0, h1, h2, h3,
      QM35_HSSPI_RETRY_COUNT, QM35_HSSPI_RETRY_DELAY_US, EBUSY, EAGAIN]
  refine ⟨hmain, ?_, ?_⟩ <;> rw [hmain] <;> decide

/-- Witness for the amended C4 at the constant all-Busy oracle. -/
theorem spi_send_busy_retry_behaviour_witness :
    (∀ k, k < QM35_HSSPI_RETRY_COUNT + 1 → (fun _ => -EBUSY : Nat → Int) k = -EBUSY) ∧
    (qm35_spi_send (fun _ => -EBUSY) false =
      (-EBUSY, [⟨false, 0⟩, ⟨true, QM35_HSSPI_RETRY_DELAY_US⟩,
        ⟨true, 2 * QM35_HSSPI_RETRY_DELAY_US⟩,
        ⟨true, 4 * QM35_HSSPI_RETRY_DELAY_US⟩]) ∧
    (qm35_spi_send (fun _ => -EBUSY) false).2.length =
      QM35_HSSPI_RETRY_COUNT + 1 ∧
    forcedWakeups (qm35_spi_send (fun _ => -EBUSY) false).2 =
      QM35_HSSPI_RETRY_COUNT) :=
  ⟨fun _ _ => rfl,
    spi_send_busy_retry_behaviour (fun _ => -EBUSY) (fun _ _ => rfl)⟩

/-- C2 counterexample: read phase with the echoed length matching the
announced length (6) and the out-active flag absent, but the echoed flags
also carrying the data-waiting bit (0x80): recv fails with the retryable
-EAGAIN, yet the pending-read state is NOT preserved — `prd_done` is reset,
so the next call redoes the pre-read, contradicting the claim. -/
theorem recv_retryable_resets_pending_counterexample :
    (let st : HsspiState := ⟨true, 6, false, 0, 0, 0⟩
     let env : RecvEnv := ⟨0, 0, ⟨0, 0, 0⟩, 0, 0, ⟨0x80, 2, 6⟩⟩
     let r := qm35_hsspi_recv st env true 8
     env.rdEcho.length = st.prd_length ∧
     env.rdEcho.flags &&& HSSPI_SOC_OA = 0 ∧
     r.ret = -EAGAIN ∧
     r.st.prd_done = false) := by
  decide

/-- C2 amended: in the read phase of recv (pending length already announced
and fitting the buffer, ready waits and bus exchange succeeding), an echoed
header length differing from the announced one fails with -EPROTO
(ProtocolError) and resets the pending-read state, so the next recv redoes
the pre-read; an echoed length that matches with the out-active flag absent
fails with the retryable -EAGAIN, and the pending-read state is preserved —
unless the echoed flags also carry the data-waiting bit, in which case it is
reset as well. -/
theorem recv_read_phase_checks (st : HsspiState) (env : RecvEnv) (size : Nat)
    (hprd : st.prd_done = true) (hfit : st.prd_length ≤ size)
    (hsz : size ≠ 0) (hwr1 : env.waitReadyEntry = 0)
    (hwr2 : env.waitReadyRd = 0) (hsync : env.rdSync = 0) :
    (env.rdEcho.length ≠ st.prd_length →
      (qm35_hsspi_recv st env true size).ret = -EPROTO ∧
      (qm35_hsspi_recv st env true size).st.prd_done = false) ∧
    (env.rdEcho.length = st.prd_length →
      env.rdEcho.flags &&& HSSPI_SOC_OA = 0 →
      (qm35_hsspi_recv st env true size).ret = -EAGAIN ∧
      ((qm35_hsspi_recv st env true size).st.prd_done = true ↔
        env.rdEcho.flags &&& HSSPI_SOC_ODW = 0)) := by
  have hnlt : ¬size < st.prd_length := not_lt.mpr hfit
  constructor
  · intro hne
    by_cases hsw : st.should_write ∧ ¬(size < st.send_size) <;>
      by_cases hrdy : env.rdEcho.flags &&& HSSPI_SOC_RDY = 0 <;>
      simp [qm35_hsspi_recv, qm35_hsspi_recv_rd, hprd, hsz, hwr1, hwr2,
        hsync, hnlt, hne, hsw, hrdy, EPROTO, EAGAIN]
  · intro heq hoa
    have hnp : ¬(EPROTO : Int) = 0 := by decide
    by_cases hsw : st.should_write ∧ ¬(size < st.send_size) <;>
      by_cases hrdy : env.rdEcho.flags &&& HSSPI_SOC_RDY = 0 <;>
      by_cases hodw : env.rdEcho.flags &&& HSSPI_SOC_ODW = 0 <;>
      simp [qm35_hsspi_recv, qm35_hsspi_recv_rd, hprd, hsz, hwr1, hwr2,
        hsync, hnlt, heq, hoa, hsw, hrdy, hodw, EPROTO, EAGAIN] <;>
      (try (split <;> simp [hprd]))

/-- Witness for the amended C2: announced length 6, buffer 8, echoed read
header ⟨flags 0x40, type 2, length 4⟩ — a length mismatch detected at a
concrete input. -/
theorem recv_read_phase_checks_witness :
    (let st : HsspiState := ⟨true, 6, false, 0, 0, 0⟩
     let env : RecvEnv := ⟨0, 0, ⟨0, 0, 0⟩, 0, 0, ⟨0x40, 2, 4⟩⟩
     st.prd_done = true ∧ st.prd_length ≤ 8 ∧
     ((env.rdEcho.length ≠ st.prd_length →
       (qm35_hsspi_recv st env true 8).ret = -EPROTO ∧
       (qm35_hsspi_recv st env true 8).st.prd_done = false) ∧
      (env.rdEcho.length = st.prd_length →
       env.rdEcho.flags &&& HSSPI_SOC_OA = 0 →
       (qm35_hsspi_recv st env true 8).ret = -EAGAIN ∧
       ((qm35_hsspi_recv st env true 8).st.prd_done = true ↔
         env.rdEcho.flags &&& HSSPI_SOC_ODW = 0)))) :=
  ⟨by decide, by decide,
    recv_read_phase_checks ⟨true, 6, false, 0, 0, 0⟩
      ⟨0, 0, ⟨0, 0, 0⟩, 0, 0, ⟨0x40, 2, 4⟩⟩ 8 (by decide) (by decide)
      (by decide) (by decide) (by decide) (by decide)⟩

/-- C9: when the pending announced length strictly exceeds the caller's
buffer (whether cached from an earlier opportunistic pre-read or announced
by the pre-read done in this very call), recv fails with -EMSGSIZE without
issuing the read-phase transaction, and the pending-read state is
invalidated so the next recv performs a fresh pre-read. -/
theorem recv_oversized_announcement (st : HsspiState) (env : RecvEnv)
    (size : Nat) (hsz : size ≠ 0) (hwr1 : env.waitReadyEntry = 0) :
    (st.prd_done = true → size < st.prd_length →
      qm35_hsspi_recv st env true size =
        ⟨-EMSGSIZE, { st with prd_done := false }, false⟩) ∧
    (st.prd_done = false → env.prdSync = 0 →
      env.prdEcho.flags &&& HSSPI_SOC_ODW ≠ 0 → env.prdEcho.length ≠ 0 →
      size < env.prdEcho.length →
      qm35_hsspi_recv st env true size =
        ⟨-EMSGSIZE,
          { st with prd_length := env.prdEcho.length, prd_done := false },
          false⟩) := by
  constructor
  · intro hprd hlt
    simp [qm35_hsspi_recv, qm35_hsspi_recv_rd, hprd, hsz, hwr1, hlt]
  · intro hprd hps hodw hlen hlt
    simp [qm35_hsspi_recv, qm35_hsspi_recv_rd, qm35_hsspi_prd, hprd, hsz,
      hwr1, hps, hodw, hlen, hlt, EAGAIN]

/-- Witness for C9: cached announced length 9 against a buffer of 4. -/
theorem recv_oversized_announcement_witness :
    (4 : Nat) ≠ 0 ∧
    (let st : HsspiState := ⟨true, 9, false, 0, 0, 0⟩
     let env : RecvEnv := ⟨0, 0, ⟨0, 0, 0⟩, 0, 0, ⟨0, 0, 0⟩⟩
     (st.prd_done = true → 4 < st.prd_length →
       qm35_hsspi_recv st env true 4 =
         ⟨-EMSGSIZE, { st with prd_done := false }, false⟩) ∧
     (st.prd_done = false → env.prdSync = 0 →
       env.prdEcho.flags &&& HSSPI_SOC_ODW ≠ 0 → env.prdEcho.length ≠ 0 →
       4 < env.prdEcho.length →
       qm35_hsspi_recv st env true 4 =
         ⟨-EMSGSIZE,
           { st with prd_length := env.prdEcho.length, prd_done := false },
           false⟩)) :=
  ⟨by decide,
    recv_oversized_announcement ⟨true, 9, false, 0, 0, 0⟩
      ⟨0, 0, ⟨0, 0, 0⟩, 0, 0, ⟨0, 0, 0⟩⟩ 4 (by decide) (by decide)⟩

/-- C3 counterexample: a send with pre-read requested whose echoed flags are
0x80 (data-waiting set, RDY absent) and echoed length 5 fails with the
retryable -EAGAIN — yet it leaves the pending-read state VALID
(`prd_done = true`, announced length 5), contradicting the claim that any
framing-operation error leaves PendingReadState invalid. -/
theorem send_error_validates_pending_counterexample :
    (let st : HsspiState := ⟨false, 0, false, 0, 0, 0⟩
     let env : SendEnv := ⟨0, 0, ⟨0x80, 0, 5⟩⟩
     let r := qm35_hsspi_send st env 2 true 4 true
     r.1 = -EAGAIN ∧ r.2.prd_done = true ∧ r.2.prd_length = 5) := by
  decide

/-- Well-formedness of a recv environment: the ready-wait and bus-exchange
primitives report their own failures, never -EPROTO or -EMSGSIZE (those two
codes are produced only by the framing engine's checks). -/
def RecvEnv.noProtoCodes (env : RecvEnv) : Prop :=
  env.waitReadyEntry ≠ -EPROTO ∧ env.waitReadyEntry ≠ -EMSGSIZE ∧
  env.prdSync ≠ -EPROTO ∧ env.prdSync ≠ -EMSGSIZE ∧
  env.waitReadyRd ≠ -EPROTO ∧ env.waitReadyRd ≠ -EMSGSIZE ∧
  env.rdSync ≠ -EPROTO ∧ env.rdSync ≠ -EMSGSIZE

instance (env : RecvEnv) : Decidable env.noProtoCodes := by
  unfold RecvEnv.noProtoCodes
  infer_instance

/-- Read phase: whenever it results in -EPROTO or -EMSGSIZE, the pending
read state is left invalid. -/
theorem recv_rd_proto_or_oversize_resets (st : HsspiState) (env : RecvEnv)
    (size : Nat) (henv : env.noProtoCodes) :
    ((qm35_hsspi_recv_rd st env size).ret = -EPROTO ∨
     (qm35_hsspi_recv_rd st env size).ret = -EMSGSIZE) →
    (qm35_hsspi_recv_rd st env size).st.prd_done = false := by
  obtain ⟨h1, h2, h3, h4, h5, h6, h7, h8⟩ := henv
  intro h
  by_cases c1 : size < st.prd_length
  · simp [qm35_hsspi_recv_rd, c1]
  · by_cases c2 : env.waitReadyRd = 0
    · by_cases c3 : env.rdSync = 0
      · by_cases c4 : env.rdEcho.length = st.prd_length
        · by_cases c5 : env.rdEcho.flags &&& HSSPI_SOC_OA = 0
          · exfalso
            simp [qm35_hsspi_recv_rd, c1, c2, c3, c4, c5, EPROTO, EAGAIN,
              EMSGSIZE] at h
          · exfalso
            simp [qm35_hsspi_recv_rd, c1, c2, c3, c4, c5, EPROTO, EAGAIN,
              EMSGSIZE] at h
        · simp [qm35_hsspi_recv_rd, c1, c2, c3, c4, EPROTO]
      · exfalso
        simp [qm35_hsspi_recv_rd, c1, c2, c3] at h
        rcases h with h | h <;> [exact h7 h; exact h8 h]
    · exfalso
      simp [qm35_hsspi_recv_rd, c1, c2] at h
      rcases h with h | h <;> [exact h5 h; exact h6 h]


/-- C3 amended: PendingReadState becomes valid only through an exchange
whose echoed header announces data-waiting with a nonzero length — a
dedicated pre-read (which then succeeds), or a send that requested a
pre-read, even one failing with Busy/NotReady; and whenever recv returns
-EPROTO (protocol mismatch) or -EMSGSIZE (oversized announcement), the
pending-read state is left invalid, forcing a fresh pre-read. -/
theorem pending_read_state_invariant :
    (∀ (st : HsspiState) (sync : Int) (echo : qm35_hsspi_header)
        (check : Bool),
      (qm35_hsspi_prd st sync echo check).2.prd_done = true →
        st.prd_done = true ∨
        ((qm35_hsspi_prd st sync echo check).1 = 0 ∧ check = false ∧
          echo.flags &&& HSSPI_SOC_ODW ≠ 0 ∧ echo.length ≠ 0 ∧
          (qm35_hsspi_prd st sync echo check).2.prd_length = echo.length)) ∧
    (∀ (st : HsspiState) (env : SendEnv) (ul : Nat) (hasData : Bool)
        (len : Nat) (do_prd : Bool),
      (qm35_hsspi_send st env ul hasData len do_prd).2.prd_done = true →
        st.prd_done = true ∨
        (do_prd = true ∧ env.echo.flags &&& HSSPI_SOC_ODW ≠ 0 ∧
          env.echo.length ≠ 0)) ∧
    (∀ (st : HsspiState) (env : RecvEnv) (hasData : Bool) (size : Nat),
      env.noProtoCodes →
      ((qm35_hsspi_recv st env hasData size).ret = -EPROTO ∨
        (qm35_hsspi_recv st env hasData size).ret = -EMSGSIZE) →
      (qm35_hsspi_recv st env hasData size).st.prd_done = false) := by
  refine ⟨?_, ?_, ?_⟩
  · intro st sync echo check h
    by_cases c1 : sync = 0
    · cases check with
      | true => exact Or.inl (by simpa [qm35_hsspi_prd, c1] using h)
      | false =>
        by_cases c3 : echo.flags &&& HSSPI_SOC_ODW = 0 ∨ echo.length = 0
        · exact Or.inl (by simpa [qm35_hsspi_prd, c1, c3] using h)
        · push_neg at c3
          exact Or.inr (by simp [qm35_hsspi_prd, c1, c3.1, c3.2])
    · exact Or.inl (by simpa [qm35_hsspi_prd, c1] using h)
  · intro st env ul hasData len do_prd h
    cases hD : hasData with
    | false => exact Or.inl (by simpa [qm35_hsspi_send, hD] using h)
    | true =>
      by_cases hl : len = 0
      · exact Or.inl (by simpa [qm35_hsspi_send, hD, hl] using h)
      · by_cases c2 : env.waitReady = 0
        · by_cases c3 : env.syncRes = 0
          · by_cases c4 : do_prd = true ∧
                env.echo.flags &&& HSSPI_SOC_ODW ≠ 0 ∧ env.echo.length ≠ 0
            · exact Or.inr c4
            · exact Or.inl
                (by simpa [qm35_hsspi_send, hD, hl, c2, c3, c4] using h)
          · exact Or.inl (by simpa [qm35_hsspi_send, hD, hl, c2, c3] using h)
        · exact Or.inl (by simpa [qm35_hsspi_send, hD, hl, c2] using h)
  · intro st env hasData size henv h
    obtain ⟨h1, h2, h3, h4, h5, h6, h7, h8⟩ := henv
    cases hD : hasData with
    | false =>
      rw [hD] at h
      by_cases cp : st.prd_done = true
      · have hh := recv_rd_proto_or_oversize_resets st env size
          ⟨h1, h2, h3, h4, h5, h6, h7, h8⟩
        simp only [qm35_hsspi_recv] at h ⊢
        simp [hD, cp] at h ⊢
        exact hh h
      · exfalso
        by_cases cs : env.prdSync = 0
        · simp [qm35_hsspi_recv, qm35_hsspi_prd, hD, cp, cs, EPROTO,
            EMSGSIZE] at h
        · simp [qm35_hsspi_recv, qm35_hsspi_prd, hD, cp, cs] at h
          rcases h with h | h
          · exact h3 h
          · exact h4 h
    | true =>
      rw [hD] at h
      by_cases cz : size = 0
      · exfalso
        simp [qm35_hsspi_recv, hD, cz, EINVAL, EPROTO, EMSGSIZE] at h
      · by_cases cw : env.waitReadyEntry = 0
        · by_cases cp : st.prd_done = true
          · have hh := recv_rd_proto_or_oversize_resets st env size
              ⟨h1, h2, h3, h4, h5, h6, h7, h8⟩
            simp only [qm35_hsspi_recv] at h ⊢
            simp [hD, cz, cw, cp] at h ⊢
            exact hh h
          · by_cases cs : env.prdSync = 0
            · by_cases co : env.prdEcho.flags &&& HSSPI_SOC_ODW = 0 ∨
                  env.prdEcho.length = 0
              · exfalso
                simp [qm35_hsspi_recv, qm35_hsspi_prd, hD, cz, cw, cp, cs,
                  co, EAGAIN, EPROTO, EMSGSIZE] at h
              · push_neg at co
                have hh := recv_rd_proto_or_oversize_resets
                  (HsspiState.mk true env.prdEcho.length st.should_write
                    st.send_size st.send_type st.work_send_ret) env size
                  ⟨h1, h2, h3, h4, h5, h6, h7, h8⟩
                simp only [qm35_hsspi_recv, qm35_hsspi_prd] at h ⊢
                simp [hD, cz, cw, cp, cs, co.1, co.2] at h ⊢
                exact hh h
            · exfalso
              simp [qm35_hsspi_recv, qm35_hsspi_prd, hD, cz, cw, cp, cs] at h
              rcases h with h | h
              · exact h3 h
              · exact h4 h
        · exfalso
          simp [qm35_hsspi_recv, hD, cz, cw] at h
          rcases h with h | h
          · exact h1 h
          · exact h2 h

/-- Witness for the amended C3: a protocol mismatch (announced 6, echoed 4)
leaves the pending-read state invalid at a concrete input. -/
theorem pending_read_state_invariant_witness :
    (let st : HsspiState := ⟨true, 6, false, 0, 0, 0⟩
     let env : RecvEnv := ⟨0, 0, ⟨0, 0, 0⟩, 0, 0, ⟨0x60, 2, 4⟩⟩
     env.noProtoCodes ∧
     ((qm35_hsspi_recv st env true 8).ret = -EPROTO ∨
      (qm35_hsspi_recv st env true 8).ret = -EMSGSIZE) ∧
     (qm35_hsspi_recv st env true 8).st.prd_done = false) :=
  ⟨by decide, by decide,
    pending_read_state_invariant.2.2 ⟨true, 6, false, 0, 0, 0⟩
      ⟨0, 0, ⟨0, 0, 0⟩, 0, 0, ⟨0x60, 2, 4⟩⟩ true 8 (by decide) (by decide)⟩

/-- C7: opening the bypass channel while already open fails with -EBUSY
(AlreadyOpen) leaving the state untouched; closing while not open fails
with the explicit -EBADF "not opened" error; and close, control, send and
recv all fail with -EPERM (PermissionDenied), without any state change,
when issued by a process group other than the opener. -/
theorem bypass_open_close_ownership (b : BypassDev)
    (cb priv tgid tgid' bufPtr len len' : Nat) (startRc sendRc trc : Int)
    (action : Nat) (param : Option Int)
    (hcb : cb ≠ 0) (hbuf : bufPtr ≠ 0) (hlen : len ≠ 0) :
    (b.opened = true →
      qm35_bypass_open b cb priv tgid startRc = (-EBUSY, b)) ∧
    (b.opened = false →
      qm35_bypass_close b tgid true = (-EBADF, b)) ∧
    (b.opened = true → b.owner ≠ tgid' →
      qm35_bypass_close b tgid' true = (-EPERM, b) ∧
      qm35_bypass_control b tgid' true action param trc = (-EPERM, b) ∧
      qm35_bypass_send b tgid' true bufPtr len sendRc = (-EPERM, b) ∧
      qm35_bypass_recv b tgid' true true true len' = (-EPERM, b, none)) := by
  refine ⟨?_, ?_, ?_⟩
  · intro hop
    simp [qm35_bypass_open, hcb, hop]
  · intro hop
    simp [qm35_bypass_close, qm35_bypass_check, hop, EBADF]
  · intro hop hown
    have hchk : qm35_bypass_check b tgid' = -EPERM := by
      simp [qm35_bypass_check, hop, hown]
    have hne : (-EPERM : Int) ≠ 0 := by decide
    refine ⟨?_, ?_, ?_, ?_⟩
    · simp [qm35_bypass_close, hchk, hne]
    · simp [qm35_bypass_control, hchk, hne]
    · simp [qm35_bypass_send, hbuf, hlen, hchk, hne]
    · simp [qm35_bypass_recv, hchk, hne]

/-- A concrete opened bypass channel: owner process group 100, expected
type UCI, one 3-byte packet queued. -/
def witnessBypass : BypassDev :=
  ⟨witnessQm, true, 100, QM35_TRANSPORT_MSG_UCI, 5, 6, [⟨2, 1, [10, 20, 30]⟩]⟩

/-- A concrete closed bypass channel. -/
def witnessBypassClosed : BypassDev :=
  ⟨witnessQm, false, 0, QM35_TRANSPORT_MSG_MAX, 0, 0, []⟩

/-- Witness for C7: the opened channel owned by group 100, called by group
200; plus a closed channel for the close-while-not-open case. -/
theorem bypass_open_close_ownership_witness :
    ((7 : Nat) ≠ 0 ∧
     (witnessBypass.opened = true →
       qm35_bypass_open witnessBypass 7 5 200 0 = (-EBUSY, witnessBypass)) ∧
     (witnessBypass.opened = true → witnessBypass.owner ≠ 200 →
       qm35_bypass_close witnessBypass 200 true = (-EPERM, witnessBypass) ∧
       qm35_bypass_control witnessBypass 200 true 0 (some 0) 0 =
         (-EPERM, witnessBypass) ∧
       qm35_bypass_send witnessBypass 200 true 3 4 0 =
         (-EPERM, witnessBypass) ∧
       qm35_bypass_recv witnessBypass 200 true true true 2 =
         (-EPERM, witnessBypass, none))) ∧
    (witnessBypassClosed.opened = false →
      qm35_bypass_close witnessBypassClosed 100 true =
        (-EBADF, witnessBypassClosed)) :=
  ⟨⟨by decide,
    (bypass_open_close_ownership witnessBypass 7 5 200 200 3 4 2 0 0 0 0
      (some 0) (by decide) (by decide) (by decide)).1,
    (bypass_open_close_ownership witnessBypass 7 5 200 200 3 4 2 0 0 0 0
      (some 0) (by decide) (by decide) (by decide)).2.2⟩,
   (bypass_open_close_ownership witnessBypassClosed 7 5 100 200 3 4 2 0 0 0 0
      (some 0) (by decide) (by decide) (by decide)).2.1⟩

/-- C10: with a packet at the head of the bypass queue longer than the
caller's buffer, recv copies exactly buffer-size bytes and returns that
count, the packet stays at the head holding the uncopied remainder, and a
following call with a big-enough buffer returns the remaining bytes in
order and removes (frees) the packet; in general the head packet is removed
by a call exactly when the buffer covers all its remaining bytes. -/
theorem bypass_recv_partial_consumption (b : BypassDev)
    (tgid len1 len2 : Nat) (skb : SkBuffPkt) (rest : List SkBuffPkt)
    (hop : b.opened = true) (hown : b.owner = tgid)
    (hq : b.packets = skb :: rest) (hshort : len1 < skb.data.length)
    (hen : skb.data.length - len1 ≤ len2) :
    (let r1 := qm35_bypass_recv b tgid true true true len1
     r1.1 = (len1 : Int) ∧
     r1.2.2 = some (skb.type, skb.flags, skb.data.take len1) ∧
     r1.2.1.packets = ⟨skb.type, skb.flags, skb.data.drop len1⟩ :: rest ∧
     (let r2 := qm35_bypass_recv r1.2.1 tgid true true true len2
      r2.1 = ((skb.data.length - len1 : Nat) : Int) ∧
      r2.2.2 = some (skb.type, skb.flags, skb.data.drop len1) ∧
      r2.2.1.packets = rest)) ∧
    (∀ n, (qm35_bypass_recv b tgid true true true n).2.1.packets = rest ↔
      skb.data.length ≤ n) := by
  have hchk : qm35_bypass_check b tgid = 0 := by
    simp [qm35_bypass_check, hop, hown]
  constructor
  · have hnl : ¬skb.data.length < len1 := by omega
    have hne1 : ¬len1 = skb.data.length := by omega
    simp only [qm35_bypass_recv, hchk, hq, hnl, hne1, if_false, if_neg,
      not_false_eq_true, ne_eq, not_true_eq_false, or_self, ite_false]
    refine ⟨by simp, by simp, by simp, ?_⟩
    have hlen2 : (skb.data.drop len1).length = skb.data.length - len1 := by
      simp
    by_cases hc : skb.data.length - len1 < len2
    · have hc2 : (skb.data.drop len1).length < len2 := by omega
      simp [qm35_bypass_recv, qm35_bypass_check, hop, hown, hc, hc2]
    · have hc2 : ¬(skb.data.drop len1).length < len2 := by
        rw [hlen2]; omega
      have heq2 : len2 = (skb.data.drop len1).length := by rw [hlen2]; omega
      simp [qm35_bypass_recv, qm35_bypass_check, hop, hown, hc2, heq2]
  · intro n
    by_cases hc : skb.data.length < n
    · simp [qm35_bypass_recv, hchk, hq, hc]
      omega
    · by_cases he : n = skb.data.length
      · simp [qm35_bypass_recv, hchk, hq, hc, he]
      · have hlt : n < skb.data.length := by omega
        simp [qm35_bypass_recv, hchk, hq, hc, he]
        omega

/-- Witness for C10: the queued 3-byte packet [10, 20, 30] read through a
2-byte buffer, then a 1-byte buffer. -/
theorem bypass_recv_partial_consumption_witness :
    (witnessBypass.opened = true ∧ witnessBypass.owner = 100 ∧
     witnessBypass.packets = ⟨2, 1, [10, 20, 30]⟩ :: [] ∧
     2 < (SkBuffPkt.mk 2 1 [10, 20, 30]).data.length ∧
     (SkBuffPkt.mk 2 1 [10, 20, 30]).data.length - 2 ≤ 1) ∧
    ((let r1 := qm35_bypass_recv witnessBypass 100 true true true 2
      r1.1 = (2 : Int) ∧
      r1.2.2 = some (2, 1, ([10, 20, 30] : List Nat).take 2) ∧
      r1.2.1.packets = ⟨2, 1, ([10, 20, 30] : List Nat).drop 2⟩ :: [] ∧
      (let r2 := qm35_bypass_recv r1.2.1 100 true true true 1
       r2.1 = ((([10, 20, 30] : List Nat).length - 2 : Nat) : Int) ∧
       r2.2.2 = some (2, 1, ([10, 20, 30] : List Nat).drop 2) ∧
       r2.2.1.packets = [])) ∧
     (∀ n,
       (qm35_bypass_recv witnessBypass 100 true true true n).2.1.packets =
           [] ↔
         ([10, 20, 30] : List Nat).length ≤ n)) :=
  ⟨⟨by decide, by decide, by decide, by decide, by decide⟩,
    bypass_recv_partial_consumption witnessBypass 100 2 1 ⟨2, 1, [10, 20, 30]⟩
      [] (by decide) (by decide) (by decide) (by decide) (by decide)⟩

/-- Witness for the amended C8: no EXTON line, no wake GPIO, forced wake
through the bus exchange at a concrete environment. -/
theorem wakeup_behaviour_witness :
    (let env : WakeupEnv := ⟨false, 0, false, -3⟩
     let r := qm35_hsspi_wakeup env true
     (r.performed = true ↔
       (if env.hasExton = true then env.extonVal ≤ 0 else true = true)) ∧
     (r.performed = true →
       r.usedPulse = env.hasWakeupGpio ∧
       r.settleDelayUs = QM35_WAKEUP_DELAY_US ∧
       (env.hasWakeupGpio = true → r.ret = 0) ∧
       (env.hasWakeupGpio = false → r.ret = env.spiRes)) ∧
     (r.performed = false →
       qm35_hsspi_wakeup env true = ⟨0, false, false, 0⟩)) :=
  wakeup_behaviour ⟨false, 0, false, -3⟩ true
